import Mathlib

/-!
Shallow embedding of the authentication core of the quote-service
repository: `src/utils/jwt.ts` (JWTUtils), `src/utils/password.ts`
(PasswordUtils), `src/services/user.service.ts` (UserService) and the
AuthService in `src/services/quote.service.ts`.

Time is modelled as `Nat` milliseconds (JS `Date.now()`).  The two
external cryptographic collaborators are modelled as ideal primitives:
a bcrypt digest is an opaque wrapper of the plaintext it was hashed
from (`verify(p, hash(q)) = (p = q)`), and a signed JWT is modelled
structurally as its decoded claim set together with the signing secret,
issuer, audience and the timestamps the `jsonwebtoken` library embeds
(`iat` always; `exp` only when an `expiresIn` option is passed to
`jwt.sign`).  Verification compares the secret, issuer and audience and
checks `now < exp` when an `exp` claim is present, exactly as
`jwt.verify` does.
-/

namespace QuoteService

/-- Model of a bcrypt digest (external collaborator of
`PasswordUtils.hashPassword` / `comparePassword`): an ideal one-way
hash, represented by the plaintext it wraps. -/
inductive Digest where
  | bcrypt (plaintext : String)
  deriving DecidableEq, Repr

/-- `PasswordUtils.hashPassword` (src/utils/password.ts, line 10). -/
def hashPassword (password : String) : Digest := .bcrypt password

/-- `PasswordUtils.comparePassword` (src/utils/password.ts, line 17):
the bcrypt collaborator's own verification routine. -/
def comparePassword (password : String) (digest : Digest) : Bool :=
  match digest with
  | .bcrypt q => password == q

/-- Decoded JWT claim set.  `TokenPayload` (userId, email, role) and
`RefreshTokenPayload` (userId, tokenVersion) from the user model; a
verified token yields whichever shape was signed, since `jwt.verify`
does not inspect the payload shape and the TS `as` cast is erased. -/
inductive JwtClaims where
  | access (userId email role : String)
  | refresh (userId : String) (tokenVersion : Nat)
  deriving DecidableEq, Repr

/-- The `userId` field present in both payload shapes. -/
def JwtClaims.userId : JwtClaims → String
  | .access u _ _ => u
  | .refresh u _ => u

/-- The `tokenVersion` field: absent (`undefined` in JS) on an
access-shaped payload. -/
def JwtClaims.tokenVersion : JwtClaims → Option Nat
  | .access _ _ _ => none
  | .refresh _ v => some v

/-- Structural model of a token produced by `jwt.sign`: the claim set
plus the signing secret, the `iss` and `aud` claims set by the sign
options, the `iat` timestamp `jsonwebtoken` always stamps, and the
`exp` claim, present only when `expiresIn` is passed to `jwt.sign`. -/
structure SignedToken where
  claims : JwtClaims
  secret : String
  iss : String
  aud : String
  iat : Nat
  exp : Option Nat
  deriving DecidableEq, Repr

/-- Configuration of `JWTUtils` (src/utils/jwt.ts, lines 5-12):
secrets and the access-token TTL string, env-overridable. -/
structure JwtConfig where
  accessSecret : String
  refreshSecret : String
  accessExpiry : String
  deriving DecidableEq, Repr

/-- The defaults in src/utils/jwt.ts when no env vars are set. -/
def defaultJwtConfig : JwtConfig :=
  { accessSecret := "your-super-secret-access-key"
    refreshSecret := "your-super-secret-refresh-key"
    accessExpiry := "15m" }

/-- Expiry check performed by `jwt.verify`: a token with no `exp`
claim never expires; otherwise it is valid strictly before `exp`. -/
def expOk (exp : Option Nat) (now : Nat) : Bool :=
  match exp with
  | none => true
  | some e => now < e

/-- Model of `jwt.verify(token, secret, { issuer, audience })`: checks
the signature (secret equality in this ideal model), issuer, audience
and expiry; returns the decoded claims on success. -/
def jwtVerify (t : SignedToken) (secret iss aud : String) (now : Nat) :
    Option JwtClaims :=
  if t.secret == secret && t.iss == iss && t.aud == aud && expOk t.exp now then
    some t.claims
  else
    none

/-- `JWTUtils.generateAccessToken` (src/utils/jwt.ts, lines 14-21):
`jwt.sign(payload, ACCESS_TOKEN_SECRET, { issuer, audience })`.  Note
that the source passes no `expiresIn` option, so no `exp` claim is
embedded in the token. -/
def generateAccessToken (cfg : JwtConfig) (userId email role : String)
    (now : Nat) : SignedToken :=
  { claims := .access userId email role
    secret := cfg.accessSecret
    iss := "quote-service"
    aud := "quote-service-users"
    iat := now
    exp := none }

/-- `JWTUtils.generateRefreshToken` (src/utils/jwt.ts, lines 23-30):
same sign options under `REFRESH_TOKEN_SECRET`; again no `expiresIn`
option is passed, so no `exp` claim is embedded. -/
def generateRefreshToken (cfg : JwtConfig) (userId : String)
    (tokenVersion : Nat) (now : Nat) : SignedToken :=
  { claims := .refresh userId tokenVersion
    secret := cfg.refreshSecret
    iss := "quote-service"
    aud := "quote-service-users"
    iat := now
    exp := none }

/-- `JWTUtils.verifyAccessToken` (src/utils/jwt.ts, lines 32-41): any
`jwt.verify` failure is collapsed into one generic error. -/
def verifyAccessToken (cfg : JwtConfig) (t : SignedToken) (now : Nat) :
    Except String JwtClaims :=
  match jwtVerify t cfg.accessSecret "quote-service" "quote-service-users" now with
  | some c => .ok c
  | none => .error "Invalid or expired access token"

/-- `JWTUtils.verifyRefreshToken` (src/utils/jwt.ts, lines 43-52). -/
def verifyRefreshToken (cfg : JwtConfig) (t : SignedToken) (now : Nat) :
    Except String JwtClaims :=
  match jwtVerify t cfg.refreshSecret "quote-service" "quote-service-users" now with
  | some c => .ok c
  | none => .error "Invalid or expired refresh token"

/-- JS `parseInt` on a string with a leading digit run. -/
def leadingNat (s : String) : Nat :=
  (String.mk (s.data.takeWhile Char.isDigit)).toNat?.getD 0

/-- `JWTUtils.getAccessTokenExpiryTime` (src/utils/jwt.ts, lines
58-68): converts the TTL string to seconds via its suffix. -/
def expirySeconds (expiry : String) : Nat :=
  if expiry.endsWith "m" then leadingNat expiry * 60
  else if expiry.endsWith "h" then leadingNat expiry * 60 * 60
  else if expiry.endsWith "d" then leadingNat expiry * 24 * 60 * 60
  else leadingNat expiry

/-- The expiry reported by `JWTUtils.getAccessTokenExpiryTime` for a
given configuration. -/
def getAccessTokenExpiryTime (cfg : JwtConfig) : Nat :=
  expirySeconds cfg.accessExpiry

/-- JS `String.prototype.split` with a one-character separator over a
character list: splitting the empty list yields one empty field, and
every separator occurrence starts a new field. -/
def splitChars (sep : Char) : List Char → List (List Char)
  | [] => [[]]
  | c :: rest =>
    if c == sep then [] :: splitChars sep rest
    else
      match splitChars sep rest with
      | h :: t => (c :: h) :: t
      | [] => [[c]]

/-- JS `s.split(sep)` for a one-character separator string. -/
def jsSplit (s : String) (sep : Char) : List String :=
  (splitChars sep s.data).map String.mk

/-- `JWTUtils.extractTokenFromHeader` (src/utils/jwt.ts, lines 70-79):
the JS falsy check rejects `undefined` (`none`) and the empty string,
then `split(" ")` must give exactly two parts, the first equal to the
literal `Bearer`. -/
def extractTokenFromHeader (authHeader : Option String) : Option String :=
  match authHeader with
  | none => none
  | some s =>
    if s = "" then none
    else
      match jsSplit s ' ' with
      | [p0, p1] => if p0 = "Bearer" then some p1 else none
      | _ => none

/-- Does the password contain an ASCII lowercase letter (`/[a-z]/`)? -/
def hasLowercase (password : String) : Bool :=
  password.data.any Char.isLower

/-- Does the password contain an ASCII uppercase letter (`/[A-Z]/`)? -/
def hasUppercase (password : String) : Bool :=
  password.data.any Char.isUpper

/-- Does the password contain an ASCII digit (`/\d/`)? -/
def hasDigit (password : String) : Bool :=
  password.data.any Char.isDigit

/-- Does the password contain one of the special characters of the
character class in src/utils/password.ts, line 76? -/
def hasSpecial (password : String) : Bool :=
  password.data.any (fun c => ['@', '$', '!', '%', '*', '?', '&'].contains c)

/-- The repeated-characters pattern of src/utils/password.ts, line 80:
three or more equal consecutive characters somewhere in the string. -/
def hasTripleRepeat : List Char → Bool
  | a :: b :: c :: rest => (a == b && b == c) || hasTripleRepeat (b :: c :: rest)
  | _ => false

/-- Result record of `PasswordUtils.validatePasswordStrength`. -/
structure StrengthResult where
  isValid : Bool
  score : Nat
  feedback : List String
  deriving DecidableEq, Repr

/-- `PasswordUtils.validatePasswordStrength` (src/utils/password.ts,
lines 52-88): seven additive criteria; `isValid` is `score >= 5`; each
failed named criterion (the 12-character bonus has no message) appends
its feedback line in source order. -/
def validatePasswordStrength (password : String) : StrengthResult :=
  let score :=
    (if password.length ≥ 8 then 1 else 0) +
    (if password.length ≥ 12 then 1 else 0) +
    (if hasLowercase password then 1 else 0) +
    (if hasUppercase password then 1 else 0) +
    (if hasDigit password then 1 else 0) +
    (if hasSpecial password then 1 else 0) +
    (if hasTripleRepeat password.data then 0 else 1)
  let feedback :=
    (if password.length ≥ 8 then [] else
      ["Password should be at least 8 characters long"]) ++
    (if hasLowercase password then [] else
      ["Password should contain lowercase letters"]) ++
    (if hasUppercase password then [] else
      ["Password should contain uppercase letters"]) ++
    (if hasDigit password then [] else
      ["Password should contain numbers"]) ++
    (if hasSpecial password then [] else
      ["Password should contain special characters"]) ++
    (if hasTripleRepeat password.data then
      ["Password should not contain repeated characters"] else [])
  { isValid := decide (score ≥ 5), score := score, feedback := feedback }

/-- Identity record (`User` in the user model / `users` collection),
with timestamps in `Nat` milliseconds.  The `preferences` object and
`passwordResetExpires` are irrelevant to the authentication core and
omitted. -/
structure User where
  id : String
  email : String
  username : String
  password : Digest
  firstName : String
  lastName : String
  role : String
  isActive : Bool
  isEmailVerified : Bool
  emailVerificationToken : Option String
  passwordResetToken : Option String
  loginAttempts : Nat
  lockUntil : Option Nat
  lastLoginAt : Option Nat
  createdAt : Nat
  updatedAt : Nat
  deriving DecidableEq, Repr

/-- A structured security event emitted to the audit collaborator:
its name and severity tag. -/
structure SecurityEvent where
  name : String
  severity : String
  deriving DecidableEq, Repr

/-- `UserService.getUserById` (src/services/user.service.ts, line 94):
lookup in the `users` collection by the `id` field. -/
def getUserById (users : List User) (id : String) : Option User :=
  users.find? (fun x => x.id == id)

/-- `UserService.getUserByEmail` (src/services/user.service.ts,
line 98). -/
def getUserByEmail (users : List User) (email : String) : Option User :=
  users.find? (fun x => x.email == email)

/-- `UserService.updateUser` (src/services/user.service.ts, lines
106-129): `findOneAndUpdate({id}, {$set: fields + updatedAt})`; ids
are unique, so updating every matching record is equivalent.  Each
call site passes its fields (and the stamped `updatedAt`) as `f`. -/
def updateUser (users : List User) (id : String) (f : User → User) :
    List User :=
  users.map (fun x => if x.id == id then f x else x)

/-- The lockout threshold `maxAttempts` of
`UserService.incrementLoginAttempts` (src/services/user.service.ts,
line 156). -/
def maxAttempts : Nat := 5

/-- The lock duration `lockTime` in milliseconds
(src/services/user.service.ts, line 157). -/
def lockTime : Nat := 30 * 60 * 1000

/-- `UserService.incrementLoginAttempts` (src/services/user.service.ts,
lines 155-183): bump the counter; at `maxAttempts` also set `lockUntil`
and emit the high-severity `account_locked` event. -/
def incrementLoginAttempts (users : List User) (id : String) (now : Nat) :
    List User × List SecurityEvent :=
  match getUserById users id with
  | none => (users, [])
  | some u =>
    let attempts := u.loginAttempts + 1
    if attempts ≥ maxAttempts then
      (updateUser users id (fun x =>
        { x with loginAttempts := attempts, lockUntil := some (now + lockTime),
                 updatedAt := now }),
       [{ name := "account_locked", severity := "high" }])
    else
      (updateUser users id (fun x =>
        { x with loginAttempts := attempts, updatedAt := now }), [])

/-- `UserService.resetLoginAttempts` (src/services/user.service.ts,
lines 185-191). -/
def resetLoginAttempts (users : List User) (id : String) (now : Nat) :
    List User :=
  updateUser users id (fun x =>
    { x with loginAttempts := 0, lockUntil := none, lastLoginAt := some now,
             updatedAt := now })

/-- `UserService.isAccountLocked` (src/services/user.service.ts, lines
193-207): no `lockUntil` means unlocked; a future `lockUntil` means
locked; an elapsed one is lazily cleared (attempts reset to 0) as a
side effect, and the answer is false.  Returns the answer together
with the possibly updated collection. -/
def isAccountLocked (users : List User) (u : User) (now : Nat) :
    Bool × List User :=
  match u.lockUntil with
  | none => (false, users)
  | some t =>
    if now < t then (true, users)
    else
      (false, updateUser users u.id (fun x =>
        { x with lockUntil := none, loginAttempts := 0, updatedAt := now }))

/-- `UserService.changePassword` (src/services/user.service.ts, lines
209-237): verify the current password, then store the new digest. -/
def changePassword (users : List User) (id currentPw newPw : String)
    (now : Nat) : Bool × List User :=
  match getUserById users id with
  | none => (false, users)
  | some u =>
    if !comparePassword currentPw u.password then (false, users)
    else
      (true, updateUser users id (fun x =>
        { x with password := hashPassword newPw, updatedAt := now }))

/-- In-memory state of `AuthService` (src/services/quote.service.ts,
lines 220-226): the identity collection plus the volatile
`tokenVersions` map (modelled as an association list; `Map.set` conses
a fresh entry in front and `Map.get` takes the first match). -/
structure AuthState where
  users : List User
  tokenVersions : List (String × Nat)
  deriving DecidableEq, Repr

/-- `AuthService.getTokenVersion` (src/services/quote.service.ts,
lines 462-464): `tokenVersions.get(userId) || 0`. -/
def getTokenVersion (tv : List (String × Nat)) (userId : String) : Nat :=
  match tv.find? (fun p => p.1 == userId) with
  | some p => p.2
  | none => 0

/-- `AuthService.incrementTokenVersion` (src/services/quote.service.ts,
lines 466-469). -/
def incrementTokenVersion (tv : List (String × Nat)) (userId : String) :
    List (String × Nat) :=
  (userId, getTokenVersion tv userId + 1) :: tv

/-- `AuthService.logout` (src/services/quote.service.ts, lines
436-444): bumps the revocation generation; the identity collection is
untouched. -/
def logout (st : AuthState) (userId : String) : AuthState :=
  { st with tokenVersions := incrementTokenVersion st.tokenVersions userId }

/-- Successful login payload: the issued token pair and advertised
expiry.  The sanitized user echo of `AuthResponse` carries no further
authentication state and is omitted. -/
structure TokenPair where
  accessToken : SignedToken
  refreshToken : SignedToken
  expiresIn : Nat
  deriving DecidableEq, Repr

/-- Result of one `AuthService.login` call: the returned value or the
thrown error message, the post-state, and the security events emitted
(in emission order). -/
structure LoginOutcome where
  result : Except String TokenPair
  state : AuthState
  events : List SecurityEvent
  deriving Repr

/-- `AuthService.login` (src/services/quote.service.ts, lines
277-394): email lookup, lazy-unlocking lock check, active check,
password check (incrementing the lockout counter on mismatch), then
reset of the counter and token issuance.  The password check and the
`isActive` check read the user object fetched before the lock check;
`incrementLoginAttempts` re-reads the store. -/
def login (cfg : JwtConfig) (st : AuthState) (email passwordAttempt : String)
    (now : Nat) : LoginOutcome :=
  match getUserByEmail st.users email with
  | none =>
    { result := .error "Invalid email or password"
      state := st
      events := [{ name := "login_attempt_invalid_email", severity := "low" }] }
  | some u =>
    let lockRes := isAccountLocked st.users u now
    if lockRes.1 then
      { result := .error
          "Account is temporarily locked due to too many failed login attempts"
        state := { st with users := lockRes.2 }
        events := [{ name := "login_attempt_locked_account",
                     severity := "medium" }] }
    else if !u.isActive then
      { result := .error "Account is deactivated"
        state := { st with users := lockRes.2 }
        events := [{ name := "login_attempt_inactive_account",
                     severity := "medium" }] }
    else if !comparePassword passwordAttempt u.password then
      let incRes := incrementLoginAttempts lockRes.2 u.id now
      { result := .error "Invalid email or password"
        state := { st with users := incRes.1 }
        events := incRes.2 ++
          [{ name := "login_attempt_invalid_password", severity := "medium" }] }
    else
      { result := .ok
          { accessToken := generateAccessToken cfg u.id u.email u.role now
            refreshToken :=
              generateRefreshToken cfg u.id (getTokenVersion st.tokenVersions u.id) now
            expiresIn := getAccessTokenExpiryTime cfg }
        state := { st with users := resetLoginAttempts lockRes.2 u.id now }
        events := [] }

/-- Successful refresh payload (src/services/quote.service.ts, lines
396-398): a new access token and `expiresIn` only — the refresh token
is not rotated. -/
structure RefreshResult where
  accessToken : SignedToken
  expiresIn : Nat
  deriving DecidableEq, Repr

/-- `AuthService.refreshToken` (src/services/quote.service.ts, lines
396-434): verify, compare the embedded `tokenVersion` with the current
generation, require an existing active identity, and mint a new access
token; the surrounding catch collapses every failure into the one
generic error. -/
def refreshToken (cfg : JwtConfig) (st : AuthState) (token : SignedToken)
    (now : Nat) : Except String RefreshResult :=
  match verifyRefreshToken cfg token now with
  | .error _ => .error "Invalid refresh token"
  | .ok payload =>
    if payload.tokenVersion != some (getTokenVersion st.tokenVersions payload.userId) then
      .error "Invalid refresh token"
    else
      match getUserById st.users payload.userId with
      | none => .error "Invalid refresh token"
      | some u =>
        if !u.isActive then .error "Invalid refresh token"
        else
          .ok { accessToken := generateAccessToken cfg u.id u.email u.role now
                expiresIn := getAccessTokenExpiryTime cfg }

/-- Outcome of the identity-store lookup inside
`validateAccessToken`: the collaborator may return a user, return
nothing, or fail (throw). -/
inductive LookupOutcome where
  | found (u : User)
  | missing
  | failure
  deriving DecidableEq, Repr

/-- `AuthService.validateAccessToken` (src/services/quote.service.ts,
lines 446-460): verify the token, re-check that the identity exists
and is active, and return `null` (`none`) on every failure — the
`try`/`catch` also swallows a collaborator error thrown by the
lookup. -/
def validateAccessToken (cfg : JwtConfig) (token : SignedToken)
    (lookup : LookupOutcome) (now : Nat) : Option JwtClaims :=
  match verifyAccessToken cfg token now with
  | .error _ => none
  | .ok payload =>
    match lookup with
    | .failure => none
    | .missing => none
    | .found u => if !u.isActive then none else some payload

/-- C1: the spec claims `verifyAccess(issueAccess(c))` yields `c` plus
stamped `issuedAt` and `expiresAt` and fails with `InvalidToken` once
`expiresAt = issuance + 15 minutes` has elapsed.  In the code,
`jwt.sign` is called without an `expiresIn` option, so no `exp` claim
is stamped and verification succeeds at every later time: here a token
issued at `t = 0` ms still verifies at `t = 10^9` ms (about 11.6 days,
far past the advertised 15-minute = 900000 ms expiry), and the token
carries no expiry claim at all. -/
theorem accessToken_roundTrip_never_expires (cfg : JwtConfig)
    (uid em ro : String) (t0 now : Nat) :
    verifyAccessToken cfg (generateAccessToken cfg uid em ro t0) now =
      .ok (.access uid em ro) ∧
    (generateAccessToken cfg uid em ro t0).exp = none ∧
    verifyAccessToken defaultJwtConfig
      (generateAccessToken defaultJwtConfig "u1" "alice@x.com" "user" 0)
      1000000000 =
      .ok (.access "u1" "alice@x.com" "user") := by
  refine ⟨?_, rfl, rfl⟩
  simp [verifyAccessToken, jwtVerify, generateAccessToken, expOk]

/-- C2 counterexample: the spec claims cross-context rejection "must
not depend on the access and refresh secrets differing".  With the two
secrets equal, a refresh-signed token passes access verification,
because both signing contexts use the same issuer and audience and the
payload shape is never inspected. -/
theorem crossContext_shared_secret_counterexample :
    verifyAccessToken
      { accessSecret := "s", refreshSecret := "s", accessExpiry := "15m" }
      (generateRefreshToken
        { accessSecret := "s", refreshSecret := "s", accessExpiry := "15m" }
        "u1" 0 0) 5 =
      .ok (.refresh "u1" 0) := by
  rfl

/-- C2 amended: cross-context rejection holds exactly as far as the
secrets differ — for every claim set, a refresh-signed token fails
access verification and an access-signed token fails refresh
verification whenever `accessSecret` and `refreshSecret` are distinct
(as in the default configuration). -/
theorem crossContext_rejection_distinct_secrets (cfg : JwtConfig)
    (h : cfg.accessSecret ≠ cfg.refreshSecret)
    (uid em ro : String) (ver t0 t1 now : Nat) :
    verifyAccessToken cfg (generateRefreshToken cfg uid ver t0) now =
      .error "Invalid or expired access token" ∧
    verifyRefreshToken cfg (generateAccessToken cfg uid em ro t1) now =
      .error "Invalid or expired refresh token" := by
  have h1 : (cfg.refreshSecret == cfg.accessSecret) = false :=
    beq_eq_false_iff_ne.mpr (Ne.symm h)
  have h2 : (cfg.accessSecret == cfg.refreshSecret) = false :=
    beq_eq_false_iff_ne.mpr h
  constructor <;>
    simp [verifyAccessToken, verifyRefreshToken, jwtVerify,
      generateAccessToken, generateRefreshToken, h1, h2]

/-- Witness for the amended C2 theorem at the default configuration. -/
theorem crossContext_rejection_distinct_secrets_witness :
    verifyAccessToken defaultJwtConfig
      (generateRefreshToken defaultJwtConfig "u1" 3 0) 5 =
      .error "Invalid or expired access token" ∧
    verifyRefreshToken defaultJwtConfig
      (generateAccessToken defaultJwtConfig "u1" "alice@x.com" "user" 0) 5 =
      .error "Invalid or expired refresh token" :=
  crossContext_rejection_distinct_secrets defaultJwtConfig (by decide)
    "u1" "alice@x.com" "user" 3 0 0 5

/-- C7: `validateAccessToken` returns the token's claims exactly when
verification succeeds and the identity lookup finds an active user; in
every other case — verification failure, missing identity, inactive
identity, or a collaborator error thrown during lookup — it returns
`none` rather than raising. -/
theorem validateAccessToken_gate (cfg : JwtConfig) (token : SignedToken)
    (lookup : LookupOutcome) (now : Nat) (claims : JwtClaims) :
    validateAccessToken cfg token lookup now = some claims ↔
      (verifyAccessToken cfg token now = .ok claims ∧
       ∃ u, lookup = .found u ∧ u.isActive = true) := by
  unfold validateAccessToken
  cases hv : verifyAccessToken cfg token now with
  | error e => simp
  | ok payload =>
    cases lookup with
    | failure => simp
    | missing => simp
    | found u => cases ha : u.isActive <;> simp [ha]

/-- Witness for the C7 theorem at a concrete verifying token and an
active identity. -/
theorem validateAccessToken_gate_witness :
    validateAccessToken defaultJwtConfig
      (generateAccessToken defaultJwtConfig "u1" "alice@x.com" "user" 0)
      (.found
        { id := "u1", email := "alice@x.com", username := "alice",
          password := hashPassword "pw", firstName := "A", lastName := "B",
          role := "user", isActive := true, isEmailVerified := false,
          emailVerificationToken := none, passwordResetToken := none,
          loginAttempts := 0, lockUntil := none, lastLoginAt := none,
          createdAt := 0, updatedAt := 0 }) 5 =
      some (.access "u1" "alice@x.com" "user") := by
  exact (validateAccessToken_gate defaultJwtConfig _ _ 5 _).mpr
    ⟨by rfl, _, rfl, rfl⟩

/-- C10: `isValid` is exactly `score >= 5` over the seven criteria, so
the advisory check accepts some passwords that miss a required
character class: the 12-character password `Abcdefghijk1` (lowercase,
uppercase, digit, no triple repeat, no special character) scores 6,
is reported valid, yet its feedback still names the missing special
characters. -/
theorem validatePasswordStrength_threshold (p : String) :
    ((validatePasswordStrength p).isValid = true ↔
      (validatePasswordStrength p).score ≥ 5) ∧
    validatePasswordStrength "Abcdefghijk1" =
      { isValid := true, score := 6,
        feedback := ["Password should contain special characters"] } := by
  constructor
  · simp [validatePasswordStrength]
  · decide

/-- C8: `extractTokenFromHeader` is a total function returning
`some t` exactly when the header is present and splits on single
spaces into exactly the two parts `Bearer` and `t`; an absent header,
the empty string, a wrong scheme, wrong casing, or any other number of
parts yields `none`. -/
theorem extractTokenFromHeader_spec (h : Option String) (t : String) :
    extractTokenFromHeader h = some t ↔
      ∃ s, h = some s ∧ jsSplit s ' ' = ["Bearer", t] := by
  cases h with
  | none => simp [extractTokenFromHeader]
  | some s =>
    simp only [extractTokenFromHeader, Option.some.injEq, exists_eq_left']
    by_cases hs : s = ""
    · subst hs
      have he : jsSplit "" ' ' = [""] := rfl
      simp [he]
    · simp only [hs, if_false]
      cases hsplit : jsSplit s ' ' with
      | nil => simp
      | cons p0 rest =>
        cases rest with
        | nil => simp
        | cons p1 rest2 =>
          cases rest2 with
          | nil =>
            by_cases hb : p0 = "Bearer" <;> simp [hb]
          | cons p2 rest3 => simp

/-- Witness for the C8 theorem at a well-formed header. -/
theorem extractTokenFromHeader_spec_witness :
    extractTokenFromHeader (some "Bearer abc123") = some "abc123" :=
  (extractTokenFromHeader_spec (some "Bearer abc123") "abc123").mpr
    ⟨"Bearer abc123", rfl, by decide⟩

/-- Lookup by id after an id-preserving update of the same id: the
found record is the updated one. -/
theorem getUserById_updateUser (users : List User) (id : String)
    (f : User → User) (hf : ∀ x, (f x).id = x.id) :
    getUserById (updateUser users id f) id = (getUserById users id).map f := by
  induction users with
  | nil => rfl
  | cons a l ih =>
    by_cases ha : a.id = id
    · have h1 : updateUser (a :: l) id f = f a :: updateUser l id f := by
        simp [updateUser, ha]
      have h2 : getUserById (f a :: updateUser l id f) id = some (f a) :=
        List.find?_cons_of_pos _ (by simp [hf, ha])
      have h3 : getUserById (a :: l) id = some a :=
        List.find?_cons_of_pos _ (by simp [ha])
      rw [h1, h2, h3]; rfl
    · have h1 : updateUser (a :: l) id f = a :: updateUser l id f := by
        simp [updateUser, ha]
      have h2 : getUserById (a :: updateUser l id f) id =
          getUserById (updateUser l id f) id :=
        List.find?_cons_of_neg _ (by simp [ha])
      have h3 : getUserById (a :: l) id = getUserById l id :=
        List.find?_cons_of_neg _ (by simp [ha])
      rw [h1, h2, h3, ih]

/-- After `incrementTokenVersion`, the current generation for the
bumped identity is one higher. -/
theorem getTokenVersion_increment (tv : List (String × Nat)) (uid : String) :
    getTokenVersion (incrementTokenVersion tv uid) uid =
      getTokenVersion tv uid + 1 := by
  simp [getTokenVersion, incrementTokenVersion, List.find?]

/-- A concrete identity record used by the witness theorems. -/
def alice : User :=
  { id := "u1", email := "alice@x.com", username := "alice",
    password := hashPassword "CorrectHorse1!", firstName := "Alice",
    lastName := "Smith", role := "user", isActive := true,
    isEmailVerified := false, emailVerificationToken := none,
    passwordResetToken := none, loginAttempts := 0, lockUntil := none,
    lastLoginAt := none, createdAt := 0, updatedAt := 0 }

/-- C3: for an identity at generation `G` holding a refresh token
stamped `G`, `logout` bumps the generation to `G + 1`, after which a
refresh with the old token fails with the generic `InvalidToken`
error, while a refresh token stamped `G + 1` (as issued after the
logout) succeeds for the still-active identity and returns a new
access token only — the result record carries no refresh token, so the
refresh token is not rotated. -/
theorem logout_revokes_refresh (cfg : JwtConfig) (st : AuthState)
    (uid : String) (u : User) (t0 t1 now : Nat)
    (hid : getUserById st.users uid = some u)
    (hact : u.isActive = true) :
    refreshToken cfg (logout st uid)
      (generateRefreshToken cfg uid (getTokenVersion st.tokenVersions uid) t0)
      now = .error "Invalid refresh token" ∧
    refreshToken cfg (logout st uid)
      (generateRefreshToken cfg uid (getTokenVersion st.tokenVersions uid + 1) t1)
      now =
      .ok { accessToken := generateAccessToken cfg u.id u.email u.role now,
            expiresIn := getAccessTokenExpiryTime cfg } := by
  have hver : getTokenVersion (logout st uid).tokenVersions uid =
      getTokenVersion st.tokenVersions uid + 1 :=
    getTokenVersion_increment st.tokenVersions uid
  constructor
  · simp [refreshToken, verifyRefreshToken, jwtVerify, generateRefreshToken,
      expOk, JwtClaims.userId, JwtClaims.tokenVersion, hver,
      Nat.succ_ne_self]
  · have husers : (logout st uid).users = st.users := rfl
    simp [refreshToken, verifyRefreshToken, jwtVerify, generateRefreshToken,
      expOk, JwtClaims.userId, JwtClaims.tokenVersion, hver, husers, hid, hact]

/-- Witness for the C3 theorem at a concrete state holding `alice` at
generation 0. -/
theorem logout_revokes_refresh_witness :
    refreshToken defaultJwtConfig (logout ⟨[alice], []⟩ "u1")
      (generateRefreshToken defaultJwtConfig "u1"
        (getTokenVersion ([] : List (String × Nat)) "u1") 0) 7 =
      .error "Invalid refresh token" ∧
    refreshToken defaultJwtConfig (logout ⟨[alice], []⟩ "u1")
      (generateRefreshToken defaultJwtConfig "u1"
        (getTokenVersion ([] : List (String × Nat)) "u1" + 1) 3) 7 =
      .ok { accessToken :=
              generateAccessToken defaultJwtConfig alice.id alice.email
                alice.role 7,
            expiresIn := getAccessTokenExpiryTime defaultJwtConfig } :=
  logout_revokes_refresh defaultJwtConfig ⟨[alice], []⟩ "u1" alice 0 3 7
    (by decide) (by decide)

/-- C6: when `lockUntil` is set and not after the current time, the
lock query lazily transitions the account back to unlocked — clearing
`lockUntil` and resetting `loginAttempts` to 0 in the store — and
answers false, so the subsequent login evaluation never fails with the
`AccountLocked` error. -/
theorem lazy_unlock (cfg : JwtConfig) (st : AuthState) (email pw : String)
    (u : User) (t now : Nat)
    (hl : u.lockUntil = some t) (ht : t ≤ now)
    (hfind : getUserByEmail st.users email = some u) :
    isAccountLocked st.users u now =
      (false, updateUser st.users u.id (fun x =>
        { x with lockUntil := none, loginAttempts := 0, updatedAt := now })) ∧
    (login cfg st email pw now).result ≠
      .error
        "Account is temporarily locked due to too many failed login attempts" := by
  have hnl : ¬ now < t := Nat.not_lt.mpr ht
  have hlock : isAccountLocked st.users u now =
      (false, updateUser st.users u.id (fun x =>
        { x with lockUntil := none, loginAttempts := 0, updatedAt := now })) := by
    simp [isAccountLocked, hl, hnl]
  refine ⟨hlock, ?_⟩
  simp only [login, hfind, hlock]
  cases hA : u.isActive <;>
    cases hP : comparePassword pw u.password <;>
      simp [hA, hP]

/-- Witness for the C6 theorem: `alice` locked until time 100,
queried at time 100. -/
theorem lazy_unlock_witness :
    isAccountLocked [{ alice with lockUntil := some 100 }]
      { alice with lockUntil := some 100 } 100 =
      (false,
       updateUser [{ alice with lockUntil := some 100 }]
         { alice with lockUntil := some 100 }.id (fun x =>
           { x with lockUntil := none, loginAttempts := 0,
                    updatedAt := 100 })) ∧
    (login defaultJwtConfig ⟨[{ alice with lockUntil := some 100 }], []⟩
      "alice@x.com" "nope" 100).result ≠
      .error
        "Account is temporarily locked due to too many failed login attempts" :=
  lazy_unlock defaultJwtConfig ⟨[{ alice with lockUntil := some 100 }], []⟩
    "alice@x.com" "nope" { alice with lockUntil := some 100 } 100 100
    rfl (by decide) (by decide)

/-- C5: an unknown-email login and a wrong-password login (against an
unlocked, active identity) both fail with the identical error value
`Invalid email or password`; the unknown-email run leaves the whole
identity store — hence every identity's `loginAttempts` counter —
unchanged, while the wrong-password run increments exactly that
identity's counter. -/
theorem login_enumeration_resistance (cfg : JwtConfig) (st : AuthState)
    (emailA pwA emailB pwB : String) (u : User) (nowA nowB : Nat)
    (hA : getUserByEmail st.users emailA = none)
    (hB : getUserByEmail st.users emailB = some u)
    (hid : getUserById st.users u.id = some u)
    (hlock : u.lockUntil = none)
    (hact : u.isActive = true)
    (hpw : comparePassword pwB u.password = false) :
    (login cfg st emailA pwA nowA).result = .error "Invalid email or password" ∧
    (login cfg st emailA pwA nowA).state = st ∧
    (login cfg st emailB pwB nowB).result = .error "Invalid email or password" ∧
    (getUserById (login cfg st emailB pwB nowB).state.users u.id).map
        User.loginAttempts =
      some (u.loginAttempts + 1) := by
  refine ⟨by simp [login, hA], by simp [login, hA], ?_, ?_⟩
  · simp [login, hB, isAccountLocked, hlock, hact, hpw]
  · simp only [login, hB, isAccountLocked, hlock, hact, hpw]
    simp only [Bool.not_true, Bool.false_eq_true, if_false,
      Bool.not_false, if_true]
    by_cases hth : u.loginAttempts + 1 ≥ maxAttempts
    · simp only [incrementLoginAttempts, hid, hth, if_pos]
      rw [getUserById_updateUser]
      · rw [hid]; rfl
      · intro x; rfl
    · simp only [incrementLoginAttempts, hid, hth, if_neg, if_false]
      rw [getUserById_updateUser]
      · rw [hid]; rfl
      · intro x; rfl

/-- Witness for the C5 theorem: an email absent from the store versus
`alice` with a wrong password. -/
theorem login_enumeration_resistance_witness :
    (login defaultJwtConfig ⟨[alice], []⟩ "doesnotexist@x.com" "whatever"
        3).result = .error "Invalid email or password" ∧
    (login defaultJwtConfig ⟨[alice], []⟩ "doesnotexist@x.com" "whatever"
        3).state = ⟨[alice], []⟩ ∧
    (login defaultJwtConfig ⟨[alice], []⟩ "alice@x.com" "nope" 4).result =
      .error "Invalid email or password" ∧
    (getUserById (login defaultJwtConfig ⟨[alice], []⟩ "alice@x.com" "nope"
          4).state.users alice.id).map User.loginAttempts =
      some (alice.loginAttempts + 1) :=
  login_enumeration_resistance defaultJwtConfig ⟨[alice], []⟩
    "doesnotexist@x.com" "whatever" "alice@x.com" "nope" alice 3 4
    (by decide) (by decide) (by decide) rfl rfl (by decide)

/-- C9: a successful `changePassword` changes only the stored digest
and the update timestamp of that identity; the revocation generation
is untouched, so a refresh token stamped with the pre-change
generation still refreshes successfully afterwards. -/
theorem changePassword_preserves_refresh (cfg : JwtConfig) (st : AuthState)
    (uid currentPw newPw : String) (u : User) (now t0 now2 : Nat)
    (hid : getUserById st.users uid = some u)
    (hpw : comparePassword currentPw u.password = true)
    (hact : u.isActive = true) :
    (changePassword st.users uid currentPw newPw now).1 = true ∧
    getUserById (changePassword st.users uid currentPw newPw now).2 uid =
      some { u with password := hashPassword newPw, updatedAt := now } ∧
    refreshToken cfg
      { users := (changePassword st.users uid currentPw newPw now).2,
        tokenVersions := st.tokenVersions }
      (generateRefreshToken cfg uid (getTokenVersion st.tokenVersions uid) t0)
      now2 =
      .ok { accessToken := generateAccessToken cfg u.id u.email u.role now2,
            expiresIn := getAccessTokenExpiryTime cfg } := by
  have hchg : changePassword st.users uid currentPw newPw now =
      (true, updateUser st.users uid (fun x =>
        { x with password := hashPassword newPw, updatedAt := now })) := by
    simp [changePassword, hid, hpw]
  have hfound : getUserById (changePassword st.users uid currentPw newPw now).2
      uid = some { u with password := hashPassword newPw, updatedAt := now } := by
    rw [hchg]
    dsimp only
    rw [getUserById_updateUser]
    · rw [hid]; rfl
    · intro x; rfl
  refine ⟨by rw [hchg], hfound, ?_⟩
  simp [refreshToken, verifyRefreshToken, jwtVerify, generateRefreshToken,
    expOk, JwtClaims.userId, JwtClaims.tokenVersion, hfound, hact]

/-- Witness for the C9 theorem: `alice` changes her password; her old
generation-0 refresh token still refreshes. -/
theorem changePassword_preserves_refresh_witness :
    (changePassword [alice] "u1" "CorrectHorse1!" "NewSecret2@" 9).1 = true ∧
    getUserById (changePassword [alice] "u1" "CorrectHorse1!" "NewSecret2@"
        9).2 "u1" =
      some { alice with password := hashPassword "NewSecret2@",
                        updatedAt := 9 } ∧
    refreshToken defaultJwtConfig
      { users := (changePassword [alice] "u1" "CorrectHorse1!" "NewSecret2@"
          9).2,
        tokenVersions := [] }
      (generateRefreshToken defaultJwtConfig "u1"
        (getTokenVersion ([] : List (String × Nat)) "u1") 2) 11 =
      .ok { accessToken :=
              generateAccessToken defaultJwtConfig alice.id alice.email
                alice.role 11,
            expiresIn := getAccessTokenExpiryTime defaultJwtConfig } :=
  changePassword_preserves_refresh defaultJwtConfig ⟨[alice], []⟩ "u1"
    "CorrectHorse1!" "NewSecret2@" alice 9 2 11 (by decide) (by decide) rfl

/-- C4: starting from an unlocked, active identity with
`loginAttempts = 0`, four wrong-password logins leave the account
unlocked with the counter at 4; the fifth sets
`lockUntil = now + 30 minutes` and emits the high-severity
`account_locked` event (before the per-attempt medium event); a sixth
attempt inside the lock window fails with the `AccountLocked` error
and leaves the store — in particular the counter — unchanged. -/
theorem lockout_threshold
    (cfg : JwtConfig) (tv : List (String × Nat))
    (uid em un pw fn ln ro : String) (ev : Bool)
    (evt prt : Option String) (lla : Option Nat) (ca ua : Nat)
    (wrongPw : String) (t1 t2 t3 t4 t5 t6 : Nat)
    (hw : wrongPw ≠ pw) (h6 : t6 < t5 + lockTime) :
    let u : User :=
      { id := uid, email := em, username := un, password := hashPassword pw,
        firstName := fn, lastName := ln, role := ro, isActive := true,
        isEmailVerified := ev, emailVerificationToken := evt,
        passwordResetToken := prt, loginAttempts := 0, lockUntil := none,
        lastLoginAt := lla, createdAt := ca, updatedAt := ua }
    let o1 := login cfg ⟨[u], tv⟩ em wrongPw t1
    let o2 := login cfg o1.state em wrongPw t2
    let o3 := login cfg o2.state em wrongPw t3
    let o4 := login cfg o3.state em wrongPw t4
    let o5 := login cfg o4.state em wrongPw t5
    let o6 := login cfg o5.state em wrongPw t6
    o4.state.users = [{ u with loginAttempts := 4, updatedAt := t4 }] ∧
    o4.result = .error "Invalid email or password" ∧
    o5.result = .error "Invalid email or password" ∧
    o5.state.users =
      [{ u with loginAttempts := 5, lockUntil := some (t5 + lockTime),
                updatedAt := t5 }] ∧
    o5.events = [{ name := "account_locked", severity := "high" },
                 { name := "login_attempt_invalid_password",
                   severity := "medium" }] ∧
    o6.result = .error
      "Account is temporarily locked due to too many failed login attempts" ∧
    o6.state.users = o5.state.users := by
  have hcomp : (wrongPw == pw) = false := beq_eq_false_iff_ne.mpr hw
  simp [login, getUserByEmail, getUserById, isAccountLocked, comparePassword,
    hashPassword, incrementLoginAttempts, updateUser, resetLoginAttempts,
    maxAttempts, List.find?, hcomp, h6]

/-- Witness for the C4 theorem at fully concrete data. -/
theorem lockout_threshold_witness :
    let u : User :=
      { id := "u1", email := "alice@x.com", username := "alice",
        password := hashPassword "CorrectHorse1!", firstName := "Alice",
        lastName := "Smith", role := "user", isActive := true,
        isEmailVerified := false, emailVerificationToken := none,
        passwordResetToken := none, loginAttempts := 0, lockUntil := none,
        lastLoginAt := none, createdAt := 0, updatedAt := 0 }
    let o1 := login defaultJwtConfig ⟨[u], []⟩ "alice@x.com" "nope" 1
    let o2 := login defaultJwtConfig o1.state "alice@x.com" "nope" 2
    let o3 := login defaultJwtConfig o2.state "alice@x.com" "nope" 3
    let o4 := login defaultJwtConfig o3.state "alice@x.com" "nope" 4
    let o5 := login defaultJwtConfig o4.state "alice@x.com" "nope" 5
    let o6 := login defaultJwtConfig o5.state "alice@x.com" "nope" 6
    o4.state.users = [{ u with loginAttempts := 4, updatedAt := 4 }] ∧
    o4.result = .error "Invalid email or password" ∧
    o5.result = .error "Invalid email or password" ∧
    o5.state.users =
      [{ u with loginAttempts := 5, lockUntil := some (5 + lockTime),
                updatedAt := 5 }] ∧
    o5.events = [{ name := "account_locked", severity := "high" },
                 { name := "login_attempt_invalid_password",
                   severity := "medium" }] ∧
    o6.result = .error
      "Account is temporarily locked due to too many failed login attempts" ∧
    o6.state.users = o5.state.users :=
  lockout_threshold defaultJwtConfig [] "u1" "alice@x.com" "alice"
    "CorrectHorse1!" "Alice" "Smith" "user" false none none none 0 0
    "nope" 1 2 3 4 5 6 (by decide) (by decide)

end QuoteService
